import Mathlib

/-!
# Caldeira — formal model of the command-encoding core

A shallow embedding of the `caldeira` Vulkan safety layer, translated from
the Rust sources:

* `src/caldeira/src/vulkan/queue.rs`         — queue families and capability queries
* `src/caldeira/src/vulkan/command_pool.rs`  — command pool, command-buffer recorder,
  capability-gated views, draw/dispatch/clear/copy commands, queue-submission builder
* `src/caldeira/src/vulkan/image.rs`         — image layout tracking and transitions
* `src/caldeira/src/vulkan/buffer.rs`        — host-visible buffer read/write

Vulkan bit-flag sets (`vk::QueueFlags`, `vk::BufferUsageFlags`, ...) are modelled
as natural-number bitmasks with the `contains` / `intersects` operations of the
`ash` crate (`contains s f ↔ s &&& f = f`, `intersects s f ↔ s &&& f ≠ 0`).
Device-side effects (the `cmd_*` calls of `ash::Device`) are modelled as a trace
of recorded commands; a Rust `panic` is modelled as an `Option`/dedicated
result constructor rather than a value.
-/

namespace Caldeira

/-! ## Bit-flag sets (`ash::vk` flag types) -/

/-- `vk::Flags::contains` from the `ash` crate: all bits of `f` are set in `s`. -/
def Flags.contains (s f : Nat) : Bool := s &&& f = f

/-- `vk::Flags::intersects` from the `ash` crate: some bit of `f` is set in `s`. -/
def Flags.intersects (s f : Nat) : Bool := s &&& f ≠ 0

/-- `vk::QueueFlags::GRAPHICS` -/
def QueueFlags.GRAPHICS : Nat := 1
/-- `vk::QueueFlags::COMPUTE` -/
def QueueFlags.COMPUTE : Nat := 2
/-- `vk::QueueFlags::TRANSFER` -/
def QueueFlags.TRANSFER : Nat := 4
/-- `vk::QueueFlags::SPARSE_BINDING` -/
def QueueFlags.SPARSE_BINDING : Nat := 8
/-- `vk::QueueFlags::PROTECTED` -/
def QueueFlags.PROTECTED : Nat := 16

/-! ## Queue families (`queue.rs`) -/

/-- `QueueFamily` (`queue.rs`): the advertised `vk::QueueFamilyProperties::queue_flags`
bitmask plus the family index. -/
structure QueueFamily where
  queueFlags : Nat
  index : Nat
deriving DecidableEq, Repr

namespace QueueFamily

/-- `QueueFamily::support_graphics` (`queue.rs`). -/
def support_graphics (q : QueueFamily) : Bool :=
  Flags.contains q.queueFlags QueueFlags.GRAPHICS

/-- `QueueFamily::support_compute` (`queue.rs`). -/
def support_compute (q : QueueFamily) : Bool :=
  Flags.contains q.queueFlags QueueFlags.COMPUTE

/-- `QueueFamily::support_transfer_only` (`queue.rs`): transfer capability advertised
and neither graphics nor compute advertised. -/
def support_transfer_only (q : QueueFamily) : Bool :=
  Flags.contains q.queueFlags QueueFlags.TRANSFER &&
    !(Flags.intersects q.queueFlags (QueueFlags.GRAPHICS ||| QueueFlags.COMPUTE))

/-- `QueueFamily::support_sparse_binding` (`queue.rs`). -/
def support_sparse_binding (q : QueueFamily) : Bool :=
  Flags.contains q.queueFlags QueueFlags.SPARSE_BINDING

/-- `QueueFamily::support_protected` (`queue.rs`). -/
def support_protected (q : QueueFamily) : Bool :=
  Flags.contains q.queueFlags QueueFlags.PROTECTED

end QueueFamily

/-- `CommandPool` (`command_pool.rs`): bound to exactly one queue family.  The Rust
struct stores the family index and looks the family back up through the shared
`Device` (`device.get_queue_families(index)`); the model stores the bound family
directly, which is what that lookup returns. -/
structure CommandPool where
  queueFamily : QueueFamily
deriving DecidableEq, Repr

namespace CommandPool

/-- `CommandPool::support_graphics` (`command_pool.rs`), delegating to the bound family. -/
def support_graphics (p : CommandPool) : Bool := p.queueFamily.support_graphics

/-- `CommandPool::support_compute` (`command_pool.rs`), delegating to the bound family. -/
def support_compute (p : CommandPool) : Bool := p.queueFamily.support_compute

/-- `CommandPool::support_transfer_only` (`command_pool.rs`), delegating to the bound family. -/
def support_transfer_only (p : CommandPool) : Bool := p.queueFamily.support_transfer_only

/-- `CommandPool::support_sparse_binding` (`command_pool.rs`). -/
def support_sparse_binding (p : CommandPool) : Bool := p.queueFamily.support_sparse_binding

/-- `CommandPool::support_protected` (`command_pool.rs`). -/
def support_protected (p : CommandPool) : Bool := p.queueFamily.support_protected

end CommandPool

/-! ## Buffers (`buffer.rs`)

`Buffer` owns a `vk::Buffer` handle and a `vk::DeviceMemory` region; the bound
device memory is modelled as a byte store (address → byte).  `command_pool.rs`
additionally reads the buffer's usage bitmask (`buffer.usage`), so the model
carries the creation-time `usage` and memory `properties` flag sets. -/

/-- `vk::BufferUsageFlags::TRANSFER_SRC` -/
def BufferUsageFlags.TRANSFER_SRC : Nat := 1
/-- `vk::BufferUsageFlags::TRANSFER_DST` -/
def BufferUsageFlags.TRANSFER_DST : Nat := 2
/-- `vk::BufferUsageFlags::UNIFORM_BUFFER` -/
def BufferUsageFlags.UNIFORM_BUFFER : Nat := 16
/-- `vk::BufferUsageFlags::STORAGE_BUFFER` -/
def BufferUsageFlags.STORAGE_BUFFER : Nat := 32
/-- `vk::BufferUsageFlags::INDEX_BUFFER` -/
def BufferUsageFlags.INDEX_BUFFER : Nat := 64
/-- `vk::BufferUsageFlags::VERTEX_BUFFER` -/
def BufferUsageFlags.VERTEX_BUFFER : Nat := 128
/-- `vk::BufferUsageFlags::INDIRECT_BUFFER` -/
def BufferUsageFlags.INDIRECT_BUFFER : Nat := 256

/-- `vk::MemoryPropertyFlags::DEVICE_LOCAL` -/
def MemoryPropertyFlags.DEVICE_LOCAL : Nat := 1
/-- `vk::MemoryPropertyFlags::HOST_VISIBLE` -/
def MemoryPropertyFlags.HOST_VISIBLE : Nat := 2
/-- `vk::MemoryPropertyFlags::HOST_COHERENT` -/
def MemoryPropertyFlags.HOST_COHERENT : Nat := 4

/-- `Buffer` (`buffer.rs`): handle, usage flags, memory-property flags and the
bound device-memory contents (address → byte). -/
structure Buffer where
  handle : Nat
  usage : Nat
  properties : Nat
  memory : Nat → Nat

/-- The buffer's memory type is host visible (precondition for the host-side
`copy_data` / `get_data` path, which maps the memory). -/
def Buffer.hostVisible (b : Buffer) : Bool :=
  Flags.contains b.properties MemoryPropertyFlags.HOST_VISIBLE

/-- `ptr::copy_nonoverlapping(src, ptr, size)` writing `bs` into the mapped
region at address `off`, one byte per address, in increasing address order. -/
def writeBytes (mem : Nat → Nat) (off : Nat) : List Nat → (Nat → Nat)
  | [] => mem
  | b :: bs => writeBytes (fun a => if a = off then b else mem a) (off + 1) bs

/-- `ptr::copy_nonoverlapping(src, dst, size)` reading `n` bytes from the mapped
region starting at address `off`. -/
def readBytes (mem : Nat → Nat) (off n : Nat) : List Nat :=
  (List.range n).map fun i => mem (off + i)

/-- `Buffer::copy_data` (`buffer.rs`): maps the memory at `offset` and memcpys the
value's bytes into it.  The byte-copiable value is represented by its byte image
`data`. -/
def Buffer.copy_data (b : Buffer) (data : List Nat) (offset : Nat) : Buffer :=
  { b with memory := writeBytes b.memory offset data }

/-- `Buffer::get_data` (`buffer.rs`): maps the memory at `offset` and memcpys
`size` bytes out of it (the size of the byte-copiable destination value). -/
def Buffer.get_data (b : Buffer) (size offset : Nat) : List Nat :=
  readBytes b.memory offset size

/-! ## Image layouts and transitions (`image.rs`) -/

/-- The `vk::ImageLayout` values this system manipulates (plus further layouts the
device API defines but the transition table intentionally does not cover). -/
inductive ImageLayout where
  | undefined
  | general
  | colorAttachmentOptimal
  | depthStencilAttachmentOptimal
  | shaderReadOnlyOptimal
  | transferSrcOptimal
  | transferDstOptimal
  | preinitialized
deriving DecidableEq, Repr

/-- `vk::AccessFlags::empty()` -/
def AccessFlags.empty : Nat := 0
/-- `vk::AccessFlags::SHADER_READ` -/
def AccessFlags.SHADER_READ : Nat := 32
/-- `vk::AccessFlags::TRANSFER_READ` -/
def AccessFlags.TRANSFER_READ : Nat := 2048
/-- `vk::AccessFlags::TRANSFER_WRITE` -/
def AccessFlags.TRANSFER_WRITE : Nat := 4096
/-- `vk::AccessFlags::all()` -/
def AccessFlags.all : Nat := 131071

/-- `vk::PipelineStageFlags::TOP_OF_PIPE` -/
def PipelineStageFlags.TOP_OF_PIPE : Nat := 1
/-- `vk::PipelineStageFlags::FRAGMENT_SHADER` -/
def PipelineStageFlags.FRAGMENT_SHADER : Nat := 128
/-- `vk::PipelineStageFlags::TRANSFER` -/
def PipelineStageFlags.TRANSFER : Nat := 4096
/-- `vk::PipelineStageFlags::ALL_COMMANDS` -/
def PipelineStageFlags.ALL_COMMANDS : Nat := 65536

/-- `vk::QUEUE_FAMILY_IGNORED` (`u32::MAX`). -/
def QUEUE_FAMILY_IGNORED : Nat := 4294967295

/-- `Image` (`image.rs`): handle plus the tracked current layout (the fields the
transition logic reads and writes). -/
structure Image where
  handle : Nat
  layout : ImageLayout
deriving DecidableEq, Repr

/-- The `match self.layout` arm of `Image::transition_layout` (`image.rs`):
source access mask and source pipeline stage implied by the old layout;
`none` models the `panic("Unsupported layout transition")` arm. -/
def transition_src_masks : ImageLayout → Option (Nat × Nat)
  | .undefined => some (AccessFlags.empty, PipelineStageFlags.TOP_OF_PIPE)
  | .transferDstOptimal => some (AccessFlags.TRANSFER_WRITE, PipelineStageFlags.TRANSFER)
  | .general => some (AccessFlags.all, PipelineStageFlags.ALL_COMMANDS)
  | _ => none

/-- The `match new_layout` arm of `Image::transition_layout` (`image.rs`):
destination access mask and destination pipeline stage implied by the new layout;
`none` models the `panic("Unsupported layout transition")` arm. -/
def transition_dst_masks : ImageLayout → Option (Nat × Nat)
  | .transferDstOptimal => some (AccessFlags.TRANSFER_WRITE, PipelineStageFlags.TRANSFER)
  | .shaderReadOnlyOptimal => some (AccessFlags.SHADER_READ, PipelineStageFlags.FRAGMENT_SHADER)
  | .general => some (AccessFlags.all, PipelineStageFlags.ALL_COMMANDS)
  | .transferSrcOptimal => some (AccessFlags.TRANSFER_READ, PipelineStageFlags.TRANSFER)
  | _ => none

/-- The single `vk::ImageMemoryBarrier` built by `Image::transition_layout`,
together with the stage masks passed alongside it to `cmd_pipeline_barrier`. -/
structure LayoutTransitionBarrier where
  oldLayout : ImageLayout
  newLayout : ImageLayout
  srcAccessMask : Nat
  dstAccessMask : Nat
  srcStageMask : Nat
  dstStageMask : Nat
  srcQueueFamilyIndex : Nat
  dstQueueFamilyIndex : Nat
deriving DecidableEq, Repr

/-- Outcome of `Image::transition_layout`: either the early-return no-op (no
barrier recorded, no scratch command buffer allocated or submitted), or exactly
one barrier recorded on a single-time command buffer and submitted with the
tracked layout updated, or the fatal `panic("Unsupported layout transition")`. -/
inductive TransitionResult where
  | noop (image : Image)
  | submitted (barrier : LayoutTransitionBarrier) (image : Image)
  | fatal
deriving DecidableEq, Repr

/-- `Image::transition_layout` (`image.rs`): no-op when the tracked layout already
equals `newLayout`; otherwise looks up the access-mask/stage pairs implied by the
old and the new layout, records one image-memory barrier on a fresh single-time
command buffer, updates the tracked layout and submits; an old or new layout
outside the fixed tables is a fatal unsupported-transition panic. -/
def Image.transition_layout (img : Image) (newLayout : ImageLayout) : TransitionResult :=
  if img.layout = newLayout then
    .noop img
  else
    match transition_src_masks img.layout, transition_dst_masks newLayout with
    | some (srcAccess, srcStage), some (dstAccess, dstStage) =>
        .submitted
          { oldLayout := img.layout
            newLayout := newLayout
            srcAccessMask := srcAccess
            dstAccessMask := dstAccess
            srcStageMask := srcStage
            dstStageMask := dstStage
            srcQueueFamilyIndex := QUEUE_FAMILY_IGNORED
            dstQueueFamilyIndex := QUEUE_FAMILY_IGNORED }
          { img with layout := newLayout }
    | _, _ => .fatal

/-! ## Command buffers, recorder and capability-gated views (`command_pool.rs`)

Rust methods taking `&mut self` are embedded state-passing style: an operation
returns the pair of its `Result` value and the recorder state after the call.
The device-side `cmd_*` calls are modelled by appending to a trace of recorded
commands.  A capability-gated view (`GraphicsCommandBuffer`, `DispatchCommands`,
`TransferCommandBuffer`, ...) is a non-owning projection of the recorder, so the
view-returning constructors return `Except _ Unit` together with the (unchanged)
recorder they would wrap. -/

/-- `CommandBufferState` (`command_pool.rs`). -/
inductive CommandBufferState where
  | Initial
  | Recording
  | Executable
  | Pending
  | Invalid
deriving DecidableEq, Repr

/-- `UnsupportedOperation` (`command_pool.rs`): the typed capability error. -/
inductive UnsupportedOperation where
  | mk
deriving DecidableEq, Repr

/-- `DrawError` (`command_pool.rs`). -/
inductive DrawError where
  | Draw
  | Indexed
  | Indirect
deriving DecidableEq, Repr

/-- `DispatchError` (`command_pool.rs`). -/
inductive DispatchError where
  | Dispatch
  | Indirect
deriving DecidableEq, Repr

/-- `CopyError` (`command_pool.rs`). -/
inductive CopyError where
  | RegionsOverlapped
deriving DecidableEq, Repr

/-- `ClearError` (`command_pool.rs`): an enum with no variants. -/
inductive ClearError where
deriving DecidableEq

/-- `vk::SubpassContents`; `Subpass::contents` only ever produces `INLINE`. -/
inductive SubpassContents where
  | inline
  | secondaryCommandBuffers
deriving DecidableEq, Repr

/-- `vk::ImageMemoryBarrier` as consumed by
`InsideOfRenderpassScope::pipeline_barrier` (`command_pool.rs`). -/
structure VkImageMemoryBarrier where
  srcAccessMask : Nat
  dstAccessMask : Nat
  oldLayout : ImageLayout
  newLayout : ImageLayout
  srcQueueFamilyIndex : Nat
  dstQueueFamilyIndex : Nat
  image : Nat
deriving DecidableEq, Repr

/-- One device-side command recorded into the command buffer (a `cmd_*` call on
`ash::Device`), with the arguments the claims observe. -/
inductive Cmd where
  | beginRenderPass (contents : SubpassContents)
  | nextSubpass (contents : SubpassContents)
  | endRenderPass
  | bindVertexBuffers (firstBinding : Nat) (buffers : List Nat) (offsets : List Nat)
  | bindIndexBuffer (buffer : Nat) (offset : Nat)
  | draw (vertexCount instanceCount firstVertex firstInstance : Nat)
  | dispatch (x y z : Nat)
  | dispatchIndirect (buffer offset : Nat)
  | pipelineBarrier (srcStageMask dstStageMask : Nat)
      (imageMemoryBarriers : List VkImageMemoryBarrier)
  | clearColorImage (image : Nat) (layout : ImageLayout) (color : Nat) (rangeCount : Nat)
  | clearAttachments (attachmentCount rectCount : Nat)
  | fillBuffer (buffer offset size data : Nat)
  | updateBuffer (buffer offset : Nat) (data : List Nat)
deriving DecidableEq, Repr

/-- `GraphicsBindings` (`command_pool.rs`): per-recording-session graphics binding
state, all fields defaulted at the start of a recording. -/
structure GraphicsBindings where
  graphicsPipeline : Option Nat := none
  indexBuffer : Bool := false
  vertexBuffers : Bool := false
  descriptors : Bool := false
deriving DecidableEq, Repr

/-- `ComputeBindings` (`command_pool.rs`). -/
structure ComputeBindings where
  computePipeline : Option Nat := none
  descriptors : Bool := false
deriving DecidableEq, Repr

/-- `CommandBuffer` (`command_pool.rs`): handle, lifecycle state, usage flags and
the owning pool (whose queue family gates the capability views). -/
structure CommandBuffer where
  handle : Nat
  state : CommandBufferState := .Initial
  usage : Nat := 0
  commandPool : CommandPool
deriving DecidableEq, Repr

/-- `CommandBufferRecorder` (`command_pool.rs`): a Recording-state command buffer
together with the per-session binding state and the trace of recorded commands. -/
structure CommandBufferRecorder where
  inner : CommandBuffer
  graphicsBindings : GraphicsBindings := {}
  computeBindings : ComputeBindings := {}
  trace : List Cmd := []
deriving DecidableEq, Repr

/-- `CommandBuffer::begin` (`command_pool.rs`): moves the buffer to Recording
state, begins it on the device and returns a fresh recorder whose binding state
is `Default::default()` (every per-session flag reset). -/
def CommandBuffer.begin (cb : CommandBuffer) (usage : Nat) : CommandBufferRecorder :=
  { inner := { cb with state := .Recording, usage := usage }
    graphicsBindings := {}
    computeBindings := {}
    trace := [] }

namespace CommandBufferRecorder

/-- Record one device-side command (a `cmd_*` call). -/
def emit (r : CommandBufferRecorder) (c : Cmd) : CommandBufferRecorder :=
  { r with trace := r.trace ++ [c] }

/-- Record the commands issued by a caller-supplied render-pass callback. -/
def appendCmds (r : CommandBufferRecorder) (cs : List Cmd) : CommandBufferRecorder :=
  { r with trace := r.trace ++ cs }

/-- `CommandBufferRecorder::as_graphics_command_buffer` (`command_pool.rs`):
yields the graphics view iff the pool's family supports graphics, else the typed
capability error; the recorder itself is not modified either way. -/
def as_graphics_command_buffer (r : CommandBufferRecorder) :
    Except UnsupportedOperation Unit × CommandBufferRecorder :=
  if r.inner.commandPool.support_graphics then (.ok (), r) else (.error .mk, r)

/-- `CommandBufferRecorder::as_compute_command_buffer` (`command_pool.rs`):
yields the dispatch view iff the pool's family supports compute. -/
def as_compute_command_buffer (r : CommandBufferRecorder) :
    Except UnsupportedOperation Unit × CommandBufferRecorder :=
  if r.inner.commandPool.support_compute then (.ok (), r) else (.error .mk, r)

/-- `CommandBufferRecorder::as_transfer_command_buffer` (`command_pool.rs`):
yields the transfer view iff the pool's family supports compute, graphics or
dedicated transfer. -/
def as_transfer_command_buffer (r : CommandBufferRecorder) :
    Except UnsupportedOperation Unit × CommandBufferRecorder :=
  if r.inner.commandPool.support_compute || r.inner.commandPool.support_graphics
      || r.inner.commandPool.support_transfer_only then
    (.ok (), r)
  else
    (.error .mk, r)

end CommandBufferRecorder

namespace GraphicsGenericCommands

/-- `GraphicsGenericCommands::vertex_buffer_check` (`command_pool.rs`): true iff
the buffer carries the `VERTEX_BUFFER` usage flag. -/
def vertex_buffer_check (vertexBuffer : Buffer) : Bool :=
  if !(Flags.contains vertexBuffer.usage BufferUsageFlags.VERTEX_BUFFER) then
    false
  else
    true

/-- `GraphicsGenericCommands::index_buffer_check` (`command_pool.rs`): true iff
the buffer carries the `INDEX_BUFFER` usage flag. -/
def index_buffer_check (indexBuffer : Buffer) : Bool :=
  if !(Flags.contains indexBuffer.usage BufferUsageFlags.INDEX_BUFFER) then
    false
  else
    true

/-- `GraphicsGenericCommands::bind_vertex_buffers` (`command_pool.rs`).  The
source loop returns `Err(DrawError::Draw)` as soon as `vertex_buffer_check`
holds of some buffer in the list (the check is used un-negated there); otherwise
it records the bind and sets the session's `vertex_buffers` flag. -/
def bind_vertex_buffers (r : CommandBufferRecorder) (firstBinding : Nat)
    (buffersAndOffsets : List (Buffer × Nat)) :
    Except DrawError Unit × CommandBufferRecorder :=
  if buffersAndOffsets.any fun p => vertex_buffer_check p.1 then
    (.error .Draw, r)
  else
    let r := r.emit (.bindVertexBuffers firstBinding
      (buffersAndOffsets.map fun p => p.1.handle)
      (buffersAndOffsets.map fun p => p.2))
    (.ok (), { r with graphicsBindings := { r.graphicsBindings with vertexBuffers := true } })

/-- `GraphicsGenericCommands::bind_index_buffer` (`command_pool.rs`): fails with
`DrawError::Indexed` unless the buffer carries the `INDEX_BUFFER` usage flag,
else records the bind.  The source sets no session binding flag here: the
`index_buffer` field of `GraphicsBindings` is left untouched. -/
def bind_index_buffer (r : CommandBufferRecorder) (indexBuffer : Buffer) (offset : Nat) :
    Except DrawError Unit × CommandBufferRecorder :=
  if !(index_buffer_check indexBuffer) then
    (.error .Indexed, r)
  else
    (.ok (), r.emit (.bindIndexBuffer indexBuffer.handle offset))

end GraphicsGenericCommands

namespace DrawCommands

/-- `DrawCommands::new` (`command_pool.rs`): same guard as `bind_vertex_buffers`
(the un-negated `vertex_buffer_check` loop), then records the bind and sets the
session's `vertex_buffers` flag. -/
def new (r : CommandBufferRecorder) (firstBinding : Nat)
    (buffersAndOffsets : List (Buffer × Nat)) :
    Except DrawError Unit × CommandBufferRecorder :=
  if buffersAndOffsets.any fun p => GraphicsGenericCommands.vertex_buffer_check p.1 then
    (.error .Draw, r)
  else
    let r := r.emit (.bindVertexBuffers firstBinding
      (buffersAndOffsets.map fun p => p.1.handle)
      (buffersAndOffsets.map fun p => p.2))
    (.ok (), { r with graphicsBindings := { r.graphicsBindings with vertexBuffers := true } })

/-- `DrawCommands::can_draw` (`command_pool.rs`): the session's vertex-buffer
binding flag. -/
def can_draw (r : CommandBufferRecorder) : Bool :=
  r.graphicsBindings.vertexBuffers

/-- `DrawCommands::can_draw_indexed` (`command_pool.rs`): the session's
index-buffer binding flag. -/
def can_draw_indexed (r : CommandBufferRecorder) : Bool :=
  r.graphicsBindings.indexBuffer

/-- `DrawCommands::as_indexed` (`command_pool.rs`): yields the indexed-draw view
iff `can_draw_indexed`, else `DrawError::Indexed`. -/
def as_indexed (r : CommandBufferRecorder) :
    Except DrawError Unit × CommandBufferRecorder :=
  if can_draw_indexed r then (.ok (), r) else (.error .Indexed, r)

/-- `DrawCommands::draw` (`command_pool.rs`): fails with `DrawError::Draw` unless
`can_draw`, else records `cmd_draw` over the given vertex and instance ranges
(`Range<u32>` modelled as start/stop pairs, `len = stop - start`). -/
def draw (r : CommandBufferRecorder) (vertexes instances : Nat × Nat) :
    Except DrawError Unit × CommandBufferRecorder :=
  if !(can_draw r) then
    (.error .Draw, r)
  else
    (.ok (), r.emit (.draw (vertexes.2 - vertexes.1) (instances.2 - instances.1)
      vertexes.1 instances.1))

end DrawCommands

namespace DispatchCommands

/-- `DispatchCommands::dispatch` (`command_pool.rs`): records `cmd_dispatch`
unconditionally and returns `Ok`. -/
def dispatch (r : CommandBufferRecorder) (groupCountX groupCountY groupCountZ : Nat) :
    Except DispatchError Unit × CommandBufferRecorder :=
  (.ok (), r.emit (.dispatch groupCountX groupCountY groupCountZ))

/-- `DispatchCommands::dispatch_indirect` (`command_pool.rs`): records
`cmd_dispatch_indirect` unconditionally and returns `Ok`. -/
def dispatch_indirect (r : CommandBufferRecorder) (buffer : Buffer) (offset : Nat) :
    Except DispatchError Unit × CommandBufferRecorder :=
  (.ok (), r.emit (.dispatchIndirect buffer.handle offset))

end DispatchCommands

namespace ClearCommands

/-- `ClearCommands::clear_color_image` (`command_pool.rs`): records
`cmd_clear_color_image` at the image's tracked layout and returns `Ok`. -/
def clear_color_image (r : CommandBufferRecorder) (image : Image) (color : Nat)
    (rangeCount : Nat) : Except ClearError Unit × CommandBufferRecorder :=
  (.ok (), r.emit (.clearColorImage image.handle image.layout color rangeCount))

/-- `ClearCommands::clear_attachments` (`command_pool.rs`): records
`cmd_clear_attachments` and returns `Ok`. -/
def clear_attachments (r : CommandBufferRecorder) (attachmentCount rectCount : Nat) :
    Except ClearError Unit × CommandBufferRecorder :=
  (.ok (), r.emit (.clearAttachments attachmentCount rectCount))

/-- `ClearCommands::fill_buffer` (`command_pool.rs`): records `cmd_fill_buffer`
and returns `Ok`. -/
def fill_buffer (r : CommandBufferRecorder) (dstBuffer : Buffer)
    (dstOffset size data : Nat) : Except ClearError Unit × CommandBufferRecorder :=
  (.ok (), r.emit (.fillBuffer dstBuffer.handle dstOffset size data))

/-- `ClearCommands::update_buffer` (`command_pool.rs`): records
`cmd_update_buffer` with the value's bytes and returns `Ok`. -/
def update_buffer (r : CommandBufferRecorder) (dstBuffer : Buffer) (dstOffset : Nat)
    (data : List Nat) : Except ClearError Unit × CommandBufferRecorder :=
  (.ok (), r.emit (.updateBuffer dstBuffer.handle dstOffset data))

end ClearCommands

/-- `InsideOfRenderpassScope::pipeline_barrier` (`command_pool.rs`): iterates the
image-memory barriers, panicking if one has differing old/new layouts or
differing src/dst queue family indices (modelled by `none`, recording nothing);
otherwise records `cmd_pipeline_barrier`. -/
def InsideOfRenderpassScope.pipeline_barrier (r : CommandBufferRecorder)
    (srcStageMask dstStageMask dependencyFlags : Nat) (memoryBarrierCount : Nat)
    (imageMemoryBarriers : List VkImageMemoryBarrier) :
    Option CommandBufferRecorder :=
  if imageMemoryBarriers.any fun b =>
      b.oldLayout != b.newLayout || b.srcQueueFamilyIndex != b.dstQueueFamilyIndex then
    none
  else
    some (r.emit (.pipelineBarrier srcStageMask dstStageMask imageMemoryBarriers))

/-- `Subpass` (`command_pool.rs`): `Subpass::Inline` carries a caller-supplied
callback `FnOnce(&mut InsideOfRenderpassScope) -> Result<(), _>`; the callback is
abstracted by its observable behavior against the scope — the commands it records
and whether it returns `Ok`. -/
inductive Subpass where
  | inline (cmds : List Cmd) (ok : Bool)
deriving DecidableEq, Repr

/-- `Subpass::contents` (`command_pool.rs`): `Inline` subpasses record inline. -/
def Subpass.contents : Subpass → SubpassContents
  | .inline _ _ => .inline

/-- The commands the subpass's callback records. -/
def Subpass.cmds : Subpass → List Cmd
  | .inline cs _ => cs

/-- Whether the subpass's callback returns `Ok`. -/
def Subpass.ok : Subpass → Bool
  | .inline _ b => b

namespace GraphicsCommandBuffer

/-- The `for subpass in subpasses` loop tail of `GraphicsCommandBuffer::renderpass`
(`command_pool.rs`): `cmd_next_subpass` before each remaining subpass's callback,
then `cmd_end_render_pass` once after the last; a callback error propagates
immediately (the `?` operator), emitting nothing further. -/
def renderpassRest (r : CommandBufferRecorder) : List Subpass → CommandBufferRecorder × Bool
  | [] => (r.emit .endRenderPass, true)
  | s :: rest =>
    let r := (r.emit (.nextSubpass s.contents)).appendCmds s.cmds
    if s.ok then renderpassRest r rest else (r, false)

/-- `GraphicsCommandBuffer::renderpass` (`command_pool.rs`): returns `Ok`
immediately on an empty subpass list (no begin/end emitted); otherwise
`cmd_begin_render_pass` with the first subpass's contents, the first callback,
then the remaining subpasses via `renderpassRest`.  The second component is
`true` iff the call returns `Ok`. -/
def renderpass (r : CommandBufferRecorder) (subpasses : List Subpass) :
    CommandBufferRecorder × Bool :=
  match subpasses with
  | [] => (r, true)
  | s :: rest =>
    let r1 := (r.emit (.beginRenderPass s.contents)).appendCmds s.cmds
    if s.ok then renderpassRest r1 rest else (r1, false)

end GraphicsCommandBuffer

/-! ## Queue-submission batches (`command_pool.rs`) -/

/-- `QueueSubmission` (`command_pool.rs`): wait semaphores paired with wait
stage masks, command buffers and signal semaphores (handles as naturals). -/
structure QueueSubmission where
  wait_semaphores : List Nat := []
  wait_dst_stage_masks : List Nat := []
  command_buffers : List Nat := []
  signal_semaphores : List Nat := []
deriving DecidableEq, Repr

/-- `QueueSubmissionBuilder` (`command_pool.rs`): a newtype over the submission
being built; `Default` starts from the all-empty submission. -/
structure QueueSubmissionBuilder where
  inner : QueueSubmission := {}
deriving DecidableEq, Repr

namespace QueueSubmissionBuilder

/-- `QueueSubmissionBuilder::new` = `Self::default()` (`command_pool.rs`). -/
def new : QueueSubmissionBuilder := {}

/-- `QueueSubmissionBuilder::with_wait_semaphore` (`command_pool.rs`): pushes one
semaphore and one stage mask. -/
def with_wait_semaphore (b : QueueSubmissionBuilder) (semaphore pipelineStage : Nat) :
    QueueSubmissionBuilder :=
  { inner := { b.inner with
      wait_semaphores := b.inner.wait_semaphores ++ [semaphore]
      wait_dst_stage_masks := b.inner.wait_dst_stage_masks ++ [pipelineStage] } }

/-- `QueueSubmissionBuilder::with_command_buffer` (`command_pool.rs`). -/
def with_command_buffer (b : QueueSubmissionBuilder) (commandBuffer : Nat) :
    QueueSubmissionBuilder :=
  { inner := { b.inner with command_buffers := b.inner.command_buffers ++ [commandBuffer] } }

/-- `QueueSubmissionBuilder::with_signal_semaphore` (`command_pool.rs`). -/
def with_signal_semaphore (b : QueueSubmissionBuilder) (signalSemaphore : Nat) :
    QueueSubmissionBuilder :=
  { inner := { b.inner with signal_semaphores := b.inner.signal_semaphores ++ [signalSemaphore] } }

/-- `QueueSubmissionBuilder::with_wait_semaphores` (`command_pool.rs`): iterates
`with_wait_semaphore` over the pairs. -/
def with_wait_semaphores (b : QueueSubmissionBuilder) (pairs : List (Nat × Nat)) :
    QueueSubmissionBuilder :=
  pairs.foldl (fun b p => b.with_wait_semaphore p.1 p.2) b

/-- `QueueSubmissionBuilder::with_command_buffers` (`command_pool.rs`): extends
the command-buffer list. -/
def with_command_buffers (b : QueueSubmissionBuilder) (commandBuffers : List Nat) :
    QueueSubmissionBuilder :=
  { inner := { b.inner with command_buffers := b.inner.command_buffers ++ commandBuffers } }

/-- `QueueSubmissionBuilder::with_signal_semaphores` (`command_pool.rs`): extends
the signal-semaphore list. -/
def with_signal_semaphores (b : QueueSubmissionBuilder) (signalSemaphores : List Nat) :
    QueueSubmissionBuilder :=
  { inner := { b.inner with signal_semaphores := b.inner.signal_semaphores ++ signalSemaphores } }

/-- `QueueSubmissionBuilder::build` (`command_pool.rs`). -/
def build (b : QueueSubmissionBuilder) : QueueSubmission := b.inner

end QueueSubmissionBuilder

/-- One public `QueueSubmissionBuilder` operation, for quantifying over every
sequence of builder operations. -/
inductive BuilderOp where
  | waitSemaphore (semaphore pipelineStage : Nat)
  | commandBuffer (handle : Nat)
  | signalSemaphore (semaphore : Nat)
  | waitSemaphores (pairs : List (Nat × Nat))
  | commandBuffers (handles : List Nat)
  | signalSemaphores (semaphores : List Nat)
deriving DecidableEq, Repr

/-- Apply one builder operation. -/
def BuilderOp.apply (b : QueueSubmissionBuilder) : BuilderOp → QueueSubmissionBuilder
  | .waitSemaphore s st => b.with_wait_semaphore s st
  | .commandBuffer h => b.with_command_buffer h
  | .signalSemaphore s => b.with_signal_semaphore s
  | .waitSemaphores ps => b.with_wait_semaphores ps
  | .commandBuffers hs => b.with_command_buffers hs
  | .signalSemaphores ss => b.with_signal_semaphores ss

/-- Apply a sequence of builder operations in order. -/
def BuilderOp.applyAll (b : QueueSubmissionBuilder) (ops : List BuilderOp) :
    QueueSubmissionBuilder :=
  ops.foldl BuilderOp.apply b

/-! ## Bitmask helper lemmas -/

theorem Flags.contains_two_pow (f k : Nat) :
    Flags.contains f (2 ^ k) = f.testBit k := by
  unfold Flags.contains
  rcases h : f.testBit k with _ | _
  · simp only [decide_eq_false_iff_not]
    intro heq
    have := congrArg (fun n => n.testBit k) heq
    simp [Nat.testBit_and, h, Nat.testBit_two_pow_self] at this
  · simp only [decide_eq_true_eq]
    apply Nat.eq_of_testBit_eq
    intro i
    by_cases hik : i = k
    · subst hik
      simp [Nat.testBit_and, h, Nat.testBit_two_pow_self]
    · simp [Nat.testBit_and, Nat.testBit_two_pow, Ne.symm hik]

theorem Flags.intersects_three (f : Nat) :
    Flags.intersects f 3 = (f.testBit 0 || f.testBit 1) := by
  unfold Flags.intersects
  have h3 : f &&& 3 = f % 4 := by
    have := Nat.and_pow_two_sub_one_eq_mod f 2
    norm_num at this
    exact this
  have h0 : f.testBit 0 = decide (f % 2 = 1) := Nat.testBit_zero f
  have h1 : f.testBit 1 = decide (f / 2 % 2 = 1) := by
    rw [show (1 : Nat) = Nat.succ 0 from rfl, Nat.testBit_succ, Nat.testBit_zero]
  rw [h3, h0, h1]
  rcases Nat.lt_or_ge (f % 4) 4 with h | h
  · rcases (by omega : f % 4 = 0 ∨ f % 4 = 1 ∨ f % 4 = 2 ∨ f % 4 = 3) with h | h | h | h <;>
      · rw [h]
        have e2 : f % 2 = f % 4 % 2 := (Nat.mod_mod_of_dvd f (by norm_num)).symm
        have e4 : f / 2 % 2 = f % 4 / 2 := by omega
        rw [e2, e4, h]
        decide
  · exact absurd (Nat.mod_lt f (by norm_num)) (Nat.not_lt.mpr h)

/-! ## Claim theorems: capability query -/

/-- **C8.** `support_transfer_only` returns true exactly when the family's advertised
flag set contains the transfer capability and contains neither the graphics nor the
compute capability; it is a pure function of the advertised flags (stated over every
family, i.e. every flag bitmask). -/
theorem support_transfer_only_iff (q : QueueFamily) :
    q.support_transfer_only = true ↔
      (Flags.contains q.queueFlags QueueFlags.TRANSFER = true ∧
       Flags.contains q.queueFlags QueueFlags.GRAPHICS = false ∧
       Flags.contains q.queueFlags QueueFlags.COMPUTE = false) := by
  have hg : Flags.contains q.queueFlags QueueFlags.GRAPHICS = q.queueFlags.testBit 0 := by
    have := Flags.contains_two_pow q.queueFlags 0
    norm_num at this
    simpa [QueueFlags.GRAPHICS] using this
  have hc : Flags.contains q.queueFlags QueueFlags.COMPUTE = q.queueFlags.testBit 1 := by
    have := Flags.contains_two_pow q.queueFlags 1
    norm_num at this
    simpa [QueueFlags.COMPUTE] using this
  have hi : Flags.intersects q.queueFlags (QueueFlags.GRAPHICS ||| QueueFlags.COMPUTE) =
      (q.queueFlags.testBit 0 || q.queueFlags.testBit 1) := by
    have := Flags.intersects_three q.queueFlags
    simpa [QueueFlags.GRAPHICS, QueueFlags.COMPUTE] using this
  unfold QueueFamily.support_transfer_only
  rw [hg, hc, hi]
  rcases q.queueFlags.testBit 0 <;> rcases q.queueFlags.testBit 1 <;> simp

/-- Witness for **C8** at a concrete transfer-only family (flags = TRANSFER): the
predicate evaluates to `true` there. -/
theorem support_transfer_only_iff_witness :
    QueueFamily.support_transfer_only ⟨4, 0⟩ = true :=
  (support_transfer_only_iff ⟨4, 0⟩).mpr (by decide)

/-! ## Claim theorems: capability-gated views -/

/-- **C1.** Each capability-gated view constructor of `CommandBufferRecorder`
succeeds exactly when the pool's bound queue family supports the corresponding
capability: graphics iff `support_graphics`, compute iff `support_compute`,
transfer iff compute, graphics or dedicated transfer; otherwise the constructor
returns the typed capability error `UnsupportedOperation` and leaves the
recorder unchanged (still Recording); in particular on a compute-capable,
non-graphics family the graphics view fails, the compute view succeeds, and
`dispatch(100, 100, 1)` on it succeeds. -/
theorem capability_gated_views (r : CommandBufferRecorder)
    (h : r.inner.state = CommandBufferState.Recording) :
    (r.as_graphics_command_buffer.1 = .ok () ↔
        r.inner.commandPool.support_graphics = true) ∧
    (r.as_compute_command_buffer.1 = .ok () ↔
        r.inner.commandPool.support_compute = true) ∧
    (r.as_transfer_command_buffer.1 = .ok () ↔
        (r.inner.commandPool.support_compute = true ∨
         r.inner.commandPool.support_graphics = true ∨
         r.inner.commandPool.support_transfer_only = true)) ∧
    (r.inner.commandPool.support_graphics = false →
        r.as_graphics_command_buffer.1 = .error .mk) ∧
    (r.inner.commandPool.support_compute = false →
        r.as_compute_command_buffer.1 = .error .mk) ∧
    (r.inner.commandPool.support_compute = false →
     r.inner.commandPool.support_graphics = false →
     r.inner.commandPool.support_transfer_only = false →
        r.as_transfer_command_buffer.1 = .error .mk) ∧
    (r.as_graphics_command_buffer.2 = r ∧ r.as_compute_command_buffer.2 = r ∧
        r.as_transfer_command_buffer.2 = r) ∧
    (r.as_graphics_command_buffer.2.inner.state = CommandBufferState.Recording ∧
     r.as_compute_command_buffer.2.inner.state = CommandBufferState.Recording ∧
     r.as_transfer_command_buffer.2.inner.state = CommandBufferState.Recording) ∧
    (r.inner.commandPool.support_compute = true →
     r.inner.commandPool.support_graphics = false →
        r.as_graphics_command_buffer.1 = .error .mk ∧
        r.as_compute_command_buffer.1 = .ok () ∧
        (DispatchCommands.dispatch r.as_compute_command_buffer.2 100 100 1).1 = .ok ()) := by
  rcases hg : r.inner.commandPool.support_graphics <;>
    rcases hc : r.inner.commandPool.support_compute <;>
      rcases ht : r.inner.commandPool.support_transfer_only <;>
        simp [CommandBufferRecorder.as_graphics_command_buffer,
          CommandBufferRecorder.as_compute_command_buffer,
          CommandBufferRecorder.as_transfer_command_buffer,
          DispatchCommands.dispatch, hg, hc, ht, h]

/-- Witness for **C1** on a concrete compute-capable, non-graphics family
(flags = COMPUTE): the graphics view fails with the capability error, the
compute view succeeds, and `dispatch(100, 100, 1)` on it succeeds. -/
theorem capability_gated_views_witness :
    (CommandBufferRecorder.as_graphics_command_buffer
        ⟨⟨0, .Recording, 0, ⟨⟨2, 0⟩⟩⟩, {}, {}, []⟩).1 = .error .mk ∧
    (CommandBufferRecorder.as_compute_command_buffer
        ⟨⟨0, .Recording, 0, ⟨⟨2, 0⟩⟩⟩, {}, {}, []⟩).1 = .ok () ∧
    (DispatchCommands.dispatch
        (CommandBufferRecorder.as_compute_command_buffer
          ⟨⟨0, .Recording, 0, ⟨⟨2, 0⟩⟩⟩, {}, {}, []⟩).2 100 100 1).1 = .ok () := by
  have hall := capability_gated_views ⟨⟨0, .Recording, 0, ⟨⟨2, 0⟩⟩⟩, {}, {}, []⟩ rfl
  obtain ⟨-, -, -, -, -, -, -, -, hs⟩ := hall
  exact hs rfl rfl

/-! ## Claim theorems: image layout transitions -/

theorem transition_src_masks_isSome_iff (l : ImageLayout) :
    (transition_src_masks l).isSome = true ↔
      (l = .undefined ∨ l = .transferDstOptimal ∨ l = .general) := by
  cases l <;> simp [transition_src_masks]

theorem transition_dst_masks_isSome_iff (l : ImageLayout) :
    (transition_dst_masks l).isSome = true ↔
      (l = .transferDstOptimal ∨ l = .shaderReadOnlyOptimal ∨ l = .general ∨
       l = .transferSrcOptimal) := by
  cases l <;> simp [transition_dst_masks]

/-- **C2.** `Image::transition_layout` is a no-op when the tracked layout already
equals the requested layout; otherwise, when the old layout is one of
{UNDEFINED, TRANSFER_DST_OPTIMAL, GENERAL} and the new one of
{TRANSFER_DST_OPTIMAL, SHADER_READ_ONLY_OPTIMAL, GENERAL, TRANSFER_SRC_OPTIMAL},
it records and submits exactly one image-memory barrier whose access-mask/stage
pairs come from the fixed lookup tables and updates the tracked layout, so that
after every successful return the tracked layout equals the requested one; every
other old/new pair is the fatal unsupported-transition panic. -/
theorem transition_layout_spec (img : Image) (L : ImageLayout) :
    (img.layout = L → img.transition_layout L = .noop img) ∧
    (img.layout ≠ L →
      (img.layout = .undefined ∨ img.layout = .transferDstOptimal ∨
        img.layout = .general) →
      (L = .transferDstOptimal ∨ L = .shaderReadOnlyOptimal ∨ L = .general ∨
        L = .transferSrcOptimal) →
      img.transition_layout L = .submitted
        { oldLayout := img.layout
          newLayout := L
          srcAccessMask := ((transition_src_masks img.layout).getD (0, 0)).1
          dstAccessMask := ((transition_dst_masks L).getD (0, 0)).1
          srcStageMask := ((transition_src_masks img.layout).getD (0, 0)).2
          dstStageMask := ((transition_dst_masks L).getD (0, 0)).2
          srcQueueFamilyIndex := QUEUE_FAMILY_IGNORED
          dstQueueFamilyIndex := QUEUE_FAMILY_IGNORED }
        { img with layout := L }) ∧
    (img.layout ≠ L →
      ¬((img.layout = .undefined ∨ img.layout = .transferDstOptimal ∨
          img.layout = .general) ∧
        (L = .transferDstOptimal ∨ L = .shaderReadOnlyOptimal ∨ L = .general ∨
          L = .transferSrcOptimal)) →
      img.transition_layout L = .fatal) ∧
    (∀ (barrier : LayoutTransitionBarrier) (img2 : Image),
      (img.transition_layout L = .noop img2 ∨
       img.transition_layout L = .submitted barrier img2) →
      img2.layout = L) := by
  refine ⟨?_, ?_, ?_, ?_⟩
  · intro h
    simp [Image.transition_layout, h]
  · intro hne hsrc hdst
    obtain ⟨⟨sa, ss⟩, hseq⟩ :=
      Option.isSome_iff_exists.mp ((transition_src_masks_isSome_iff _).mpr hsrc)
    obtain ⟨⟨da, ds⟩, hdeq⟩ :=
      Option.isSome_iff_exists.mp ((transition_dst_masks_isSome_iff _).mpr hdst)
    simp [Image.transition_layout, hne, hseq, hdeq]
  · intro hne hnot
    rcases hs : transition_src_masks img.layout with _ | p
    · simp [Image.transition_layout, hne, hs]
    · rcases hd : transition_dst_masks L with _ | q
      · simp [Image.transition_layout, hne, hs, hd]
      · exact absurd
          ⟨(transition_src_masks_isSome_iff _).mp (by simp [hs]),
           (transition_dst_masks_isSome_iff _).mp (by simp [hd])⟩ hnot
  · intro barrier img2 hres
    by_cases he : img.layout = L
    · rcases hres with hres | hres
      · simp [Image.transition_layout, he] at hres
        rw [← hres]
        exact he
      · simp [Image.transition_layout, he] at hres
    · rcases hs : transition_src_masks img.layout with _ | p <;>
        rcases hd : transition_dst_masks L with _ | q <;>
          rcases hres with hres | hres <;>
            simp [Image.transition_layout, he, hs, hd] at hres
      obtain ⟨-, h2⟩ := hres
      rw [h2.symm]

/-- Witness for **C2**: transitioning a concrete image from UNDEFINED to
SHADER_READ_ONLY_OPTIMAL submits the table-derived barrier and updates the
tracked layout. -/
theorem transition_layout_spec_witness :
    Image.transition_layout ⟨0, .undefined⟩ .shaderReadOnlyOptimal =
      .submitted
        ⟨.undefined, .shaderReadOnlyOptimal, AccessFlags.empty,
          AccessFlags.SHADER_READ, PipelineStageFlags.TOP_OF_PIPE,
          PipelineStageFlags.FRAGMENT_SHADER, QUEUE_FAMILY_IGNORED,
          QUEUE_FAMILY_IGNORED⟩
        ⟨0, .shaderReadOnlyOptimal⟩ :=
  (transition_layout_spec ⟨0, .undefined⟩ .shaderReadOnlyOptimal).2.1
    (by decide) (Or.inl rfl) (Or.inr (Or.inl rfl))

/-! ## Claim theorems: vertex/index binding and drawing -/

/-- **C3.** Evaluation of the vertex-buffer bind guard at concrete inputs on a
graphics-capable recording session.  The source's guard loop in
`bind_vertex_buffers` and `DrawCommands::new` uses `vertex_buffer_check`
un-negated, so a buffer that CARRIES the `VERTEX_BUFFER` usage flag
(usage = 128) makes the call fail with `DrawError::Draw` (the recorder left
unchanged), while a buffer that LACKS the flag (usage = 0) makes the call
succeed, record the bind and set the session's vertex-buffer flag — the
opposite of the documented precondition. -/
theorem bind_vertex_buffers_eval :
    (GraphicsGenericCommands.bind_vertex_buffers
        ⟨⟨0, .Recording, 0, ⟨⟨1, 0⟩⟩⟩, {}, {}, []⟩ 0
        [(⟨1, 128, 0, fun _ => 0⟩, 0)]).1 = .error .Draw ∧
    (GraphicsGenericCommands.bind_vertex_buffers
        ⟨⟨0, .Recording, 0, ⟨⟨1, 0⟩⟩⟩, {}, {}, []⟩ 0
        [(⟨1, 128, 0, fun _ => 0⟩, 0)]).2 =
      ⟨⟨0, .Recording, 0, ⟨⟨1, 0⟩⟩⟩, {}, {}, []⟩ ∧
    (GraphicsGenericCommands.bind_vertex_buffers
        ⟨⟨0, .Recording, 0, ⟨⟨1, 0⟩⟩⟩, {}, {}, []⟩ 0
        [(⟨2, 0, 0, fun _ => 0⟩, 0)]).1 = .ok () ∧
    (GraphicsGenericCommands.bind_vertex_buffers
        ⟨⟨0, .Recording, 0, ⟨⟨1, 0⟩⟩⟩, {}, {}, []⟩ 0
        [(⟨2, 0, 0, fun _ => 0⟩, 0)]).2.graphicsBindings.vertexBuffers = true ∧
    (DrawCommands.new
        ⟨⟨0, .Recording, 0, ⟨⟨1, 0⟩⟩⟩, {}, {}, []⟩ 0
        [(⟨1, 128, 0, fun _ => 0⟩, 0)]).1 = .error .Draw ∧
    GraphicsGenericCommands.vertex_buffer_check ⟨1, 128, 0, fun _ => 0⟩ = true :=
  ⟨rfl, rfl, rfl, rfl, rfl, rfl⟩

/-- **C4.** Evaluation at the failing input: on a fresh graphics-capable
recording session, `draw` before any vertex-buffer bind fails with
`DrawError::Draw` and records nothing, `draw` after a successful bind succeeds,
and `begin` resets the session's binding flags; but after a SUCCESSFUL
`bind_index_buffer` (buffer carrying the `INDEX_BUFFER` usage flag, usage = 64)
`as_indexed` still returns `DrawError::Indexed`, because no code path ever sets
the session's `index_buffer` flag. -/
theorem as_indexed_after_bind_eval :
    (DrawCommands.draw ⟨⟨0, .Recording, 0, ⟨⟨1, 0⟩⟩⟩, {}, {}, []⟩
        (0, 3) (0, 1)).1 = .error .Draw ∧
    (DrawCommands.draw ⟨⟨0, .Recording, 0, ⟨⟨1, 0⟩⟩⟩, {}, {}, []⟩
        (0, 3) (0, 1)).2 = ⟨⟨0, .Recording, 0, ⟨⟨1, 0⟩⟩⟩, {}, {}, []⟩ ∧
    (DrawCommands.draw
        (DrawCommands.new ⟨⟨0, .Recording, 0, ⟨⟨1, 0⟩⟩⟩, {}, {}, []⟩ 0
          [(⟨2, 0, 0, fun _ => 0⟩, 0)]).2
        (0, 3) (0, 1)).1 = .ok () ∧
    (CommandBuffer.begin
        (DrawCommands.new ⟨⟨0, .Recording, 0, ⟨⟨1, 0⟩⟩⟩, {}, {}, []⟩ 0
          [(⟨2, 0, 0, fun _ => 0⟩, 0)]).2.inner 0).graphicsBindings.vertexBuffers
      = false ∧
    (GraphicsGenericCommands.bind_index_buffer
        ⟨⟨0, .Recording, 0, ⟨⟨1, 0⟩⟩⟩, {}, {}, []⟩
        ⟨3, 64, 0, fun _ => 0⟩ 0).1 = .ok () ∧
    (DrawCommands.as_indexed
        (GraphicsGenericCommands.bind_index_buffer
          ⟨⟨0, .Recording, 0, ⟨⟨1, 0⟩⟩⟩, {}, {}, []⟩
          ⟨3, 64, 0, fun _ => 0⟩ 0).2).1 = .error .Indexed :=
  ⟨rfl, rfl, rfl, rfl, rfl, rfl⟩

/-! ## Claim theorems: render-pass protocol -/

theorem renderpassRest_spec (r : CommandBufferRecorder) (subpasses : List Subpass)
    (h : ∀ s ∈ subpasses, s.ok = true) :
    GraphicsCommandBuffer.renderpassRest r subpasses =
      ({ r with trace := r.trace ++
          (subpasses.map fun s => Cmd.nextSubpass s.contents :: s.cmds).flatten ++
          [Cmd.endRenderPass] }, true) := by
  induction subpasses generalizing r with
  | nil =>
      simp [GraphicsCommandBuffer.renderpassRest, CommandBufferRecorder.emit]
  | cons s rest ih =>
      have hs : s.ok = true := h s (List.mem_cons_self s rest)
      rw [GraphicsCommandBuffer.renderpassRest, hs]
      simp only [if_true]
      rw [ih _ fun t ht => h t (List.mem_cons_of_mem s ht)]
      simp [CommandBufferRecorder.emit, CommandBufferRecorder.appendCmds]

/-- **C5 (amended).** `GraphicsCommandBuffer::renderpass`, provided every
subpass callback returns Ok: an empty subpass list returns Ok and emits no
render-pass begin and no end; a non-empty list emits begin exactly once with the
first subpass's content mode, runs each callback exactly once in list order,
emits next-subpass exactly once between each pair of consecutive subpasses, and
emits end exactly once after the last — the emitted trace is exactly
`begin :: cmds₀ ++ (next :: cmdsᵢ)ᵢ₌₁.. ++ [end]`.  (If a callback fails, the
error propagates immediately and no further subpass commands are emitted.) -/
theorem renderpass_protocol (r : CommandBufferRecorder) (subpasses : List Subpass)
    (h : ∀ s ∈ subpasses, s.ok = true) :
    (subpasses = [] → GraphicsCommandBuffer.renderpass r subpasses = (r, true)) ∧
    (∀ s0 rest, subpasses = s0 :: rest →
      GraphicsCommandBuffer.renderpass r subpasses =
        ({ r with trace := r.trace ++
            (Cmd.beginRenderPass s0.contents :: s0.cmds) ++
            (rest.map fun s => Cmd.nextSubpass s.contents :: s.cmds).flatten ++
            [Cmd.endRenderPass] }, true)) := by
  constructor
  · intro he
    subst he
    rfl
  · intro s0 rest he
    subst he
    have hs : s0.ok = true := h s0 (List.mem_cons_self s0 rest)
    rw [GraphicsCommandBuffer.renderpass, hs]
    simp only [if_true]
    rw [renderpassRest_spec _ _ fun t ht => h t (List.mem_cons_of_mem s0 ht)]
    simp [CommandBufferRecorder.emit, CommandBufferRecorder.appendCmds]

/-- Counterexample to **C5** as stated: with a non-empty subpass list whose
first callback fails, the call returns the error, never invokes the second
subpass's callback (its recorded command is absent from the trace) and emits no
render-pass end — so "invokes each subpass's callback exactly once" and "emits
end exactly once after the last subpass" fail for this call. -/
theorem renderpass_counterexample :
    (GraphicsCommandBuffer.renderpass ⟨⟨0, .Recording, 0, ⟨⟨1, 0⟩⟩⟩, {}, {}, []⟩
        [.inline [] false, .inline [Cmd.draw 3 1 0 0] true]).2 = false ∧
    (GraphicsCommandBuffer.renderpass ⟨⟨0, .Recording, 0, ⟨⟨1, 0⟩⟩⟩, {}, {}, []⟩
        [.inline [] false, .inline [Cmd.draw 3 1 0 0] true]).1.trace.count
      Cmd.endRenderPass = 0 ∧
    ¬(Cmd.draw 3 1 0 0 ∈
      (GraphicsCommandBuffer.renderpass ⟨⟨0, .Recording, 0, ⟨⟨1, 0⟩⟩⟩, {}, {}, []⟩
        [.inline [] false, .inline [Cmd.draw 3 1 0 0] true]).1.trace) := by
  refine ⟨rfl, rfl, ?_⟩
  decide

/-- Witness for **C5 (amended)** at a concrete two-subpass list with succeeding
callbacks: begin, first callback's command, next-subpass, second callback's
command, end — in that order. -/
theorem renderpass_protocol_witness :
    GraphicsCommandBuffer.renderpass ⟨⟨0, .Recording, 0, ⟨⟨1, 0⟩⟩⟩, {}, {}, []⟩
        [.inline [Cmd.draw 3 1 0 0] true, .inline [Cmd.draw 6 1 0 0] true] =
      (⟨⟨0, .Recording, 0, ⟨⟨1, 0⟩⟩⟩, {}, {},
        [Cmd.beginRenderPass .inline, Cmd.draw 3 1 0 0,
         Cmd.nextSubpass .inline, Cmd.draw 6 1 0 0, Cmd.endRenderPass]⟩, true) := by
  have hp := (renderpass_protocol ⟨⟨0, .Recording, 0, ⟨⟨1, 0⟩⟩⟩, {}, {}, []⟩
    [.inline [Cmd.draw 3 1 0 0] true, .inline [Cmd.draw 6 1 0 0] true]
    (by decide)).2
    (.inline [Cmd.draw 3 1 0 0] true) [.inline [Cmd.draw 6 1 0 0] true] rfl
  simpa using hp

/-! ## Claim theorems: pipeline barriers inside a render pass -/

/-- **C6.** `InsideOfRenderpassScope::pipeline_barrier`: if some image-memory
barrier in the list changes layout (old ≠ new) or transfers queue-family
ownership (src ≠ dst), the call fails fatally before recording anything; if
every barrier keeps both equal, the fatal branches are unreachable and the
barrier command is recorded onto the trace. -/
theorem inside_renderpass_pipeline_barrier_spec (r : CommandBufferRecorder)
    (srcStageMask dstStageMask dependencyFlags memoryBarrierCount : Nat)
    (imbs : List VkImageMemoryBarrier) :
    ((∃ b ∈ imbs, b.oldLayout ≠ b.newLayout ∨
        b.srcQueueFamilyIndex ≠ b.dstQueueFamilyIndex) →
      InsideOfRenderpassScope.pipeline_barrier r srcStageMask dstStageMask
        dependencyFlags memoryBarrierCount imbs = none) ∧
    ((∀ b ∈ imbs, b.oldLayout = b.newLayout ∧
        b.srcQueueFamilyIndex = b.dstQueueFamilyIndex) →
      InsideOfRenderpassScope.pipeline_barrier r srcStageMask dstStageMask
        dependencyFlags memoryBarrierCount imbs =
        some { r with trace := r.trace ++
          [Cmd.pipelineBarrier srcStageMask dstStageMask imbs] }) := by
  constructor
  · rintro ⟨b, hb, hviol⟩
    rw [InsideOfRenderpassScope.pipeline_barrier, if_pos]
    refine List.any_eq_true.mpr ⟨b, hb, ?_⟩
    rcases hviol with h | h <;> simp [h]
  · intro hall
    rw [InsideOfRenderpassScope.pipeline_barrier, if_neg]
    · rfl
    · intro hany
      obtain ⟨b, hb, hviol⟩ := List.any_eq_true.mp hany
      obtain ⟨h1, h2⟩ := hall b hb
      simp [h1, h2] at hviol

/-- Witness for **C6**: a barrier list whose single element keeps layout and
queue family equal is recorded, not fatal. -/
theorem inside_renderpass_pipeline_barrier_witness :
    InsideOfRenderpassScope.pipeline_barrier
        ⟨⟨0, .Recording, 0, ⟨⟨1, 0⟩⟩⟩, {}, {}, []⟩ 1 1 0 0
        [⟨0, 0, .general, .general, 7, 7, 5⟩] =
      some ⟨⟨0, .Recording, 0, ⟨⟨1, 0⟩⟩⟩, {}, {},
        [Cmd.pipelineBarrier 1 1 [⟨0, 0, .general, .general, 7, 7, 5⟩]]⟩ :=
  (inside_renderpass_pipeline_barrier_spec
      ⟨⟨0, .Recording, 0, ⟨⟨1, 0⟩⟩⟩, {}, {}, []⟩ 1 1 0 0
      [⟨0, 0, .general, .general, 7, 7, 5⟩]).2 (by decide)

/-! ## Claim theorems: host-visible buffer round-trip -/

theorem writeBytes_lt (mem : Nat → Nat) (off : Nat) (bs : List Nat) (a : Nat)
    (h : a < off) : writeBytes mem off bs a = mem a := by
  induction bs generalizing mem off with
  | nil => rfl
  | cons b bs ih =>
      rw [writeBytes, ih _ _ (Nat.lt_succ_of_lt h)]
      simp [Nat.ne_of_lt h]

theorem writeBytes_get (mem : Nat → Nat) (off : Nat) (bs : List Nat) (i : Nat)
    (h : i < bs.length) :
    writeBytes mem off bs (off + i) = bs.get ⟨i, h⟩ := by
  induction bs generalizing mem off i with
  | nil => exact absurd h (Nat.not_lt_zero i)
  | cons b bs ih =>
      cases i with
      | zero =>
          rw [writeBytes, show off + 0 = off by rfl,
            writeBytes_lt _ _ _ _ (by omega : off < off + 1)]
          simp
      | succ j =>
          rw [writeBytes, show off + (j + 1) = (off + 1) + j by omega,
            ih _ _ j (Nat.lt_of_succ_lt_succ h)]
          rfl

/-- **C7.** For every buffer whose memory is host-visible, writing a
byte-copiable value (represented by its bytes) with `copy_data` at an offset and
reading the same number of bytes back with `get_data` at that offset yields
exactly the value written. -/
theorem copy_data_get_data_roundtrip (b : Buffer) (data : List Nat) (offset : Nat)
    (h : b.hostVisible = true) :
    (b.copy_data data offset).get_data data.length offset = data := by
  apply List.ext_get
  · simp [Buffer.get_data, Buffer.copy_data, readBytes]
  · intro i h1 h2
    have hi : i < data.length := by
      simpa [Buffer.get_data, Buffer.copy_data, readBytes] using h1
    simp only [Buffer.get_data, Buffer.copy_data, readBytes]
    rw [List.get_map, List.get_range]
    exact writeBytes_get b.memory offset data i hi

/-- Witness for **C7**: a concrete host-visible buffer round-trips the bytes
`[5, 6, 7]` written at offset 4. -/
theorem copy_data_get_data_roundtrip_witness :
    (Buffer.copy_data ⟨0, 32, 2, fun _ => 0⟩ [5, 6, 7] 4).get_data 3 4 = [5, 6, 7] :=
  copy_data_get_data_roundtrip ⟨0, 32, 2, fun _ => 0⟩ [5, 6, 7] 4 rfl

/-! ## Claim theorems: queue-submission builder invariant -/

theorem with_wait_semaphores_lengths (pairs : List (Nat × Nat))
    (b : QueueSubmissionBuilder) :
    (b.with_wait_semaphores pairs).inner.wait_semaphores.length =
        b.inner.wait_semaphores.length + pairs.length ∧
    (b.with_wait_semaphores pairs).inner.wait_dst_stage_masks.length =
        b.inner.wait_dst_stage_masks.length + pairs.length := by
  induction pairs generalizing b with
  | nil => simp [QueueSubmissionBuilder.with_wait_semaphores]
  | cons p rest ih =>
      have hrec := ih (b.with_wait_semaphore p.1 p.2)
      rw [QueueSubmissionBuilder.with_wait_semaphores] at hrec ⊢
      simp only [List.foldl_cons]
      refine ⟨hrec.1.trans ?_, hrec.2.trans ?_⟩ <;>
        simp [QueueSubmissionBuilder.with_wait_semaphore] <;> omega

theorem builder_op_preserves_pairing (b : QueueSubmissionBuilder) (op : BuilderOp)
    (h : b.inner.wait_semaphores.length = b.inner.wait_dst_stage_masks.length) :
    (BuilderOp.apply b op).inner.wait_semaphores.length =
      (BuilderOp.apply b op).inner.wait_dst_stage_masks.length := by
  cases op with
  | waitSemaphore s st =>
      simp [BuilderOp.apply, QueueSubmissionBuilder.with_wait_semaphore, h]
  | commandBuffer hh =>
      simp [BuilderOp.apply, QueueSubmissionBuilder.with_command_buffer, h]
  | signalSemaphore s =>
      simp [BuilderOp.apply, QueueSubmissionBuilder.with_signal_semaphore, h]
  | waitSemaphores ps =>
      have := with_wait_semaphores_lengths ps b
      rw [BuilderOp.apply, this.1, this.2, h]
  | commandBuffers hs =>
      simp [BuilderOp.apply, QueueSubmissionBuilder.with_command_buffers, h]
  | signalSemaphores ss =>
      simp [BuilderOp.apply, QueueSubmissionBuilder.with_signal_semaphores, h]

theorem applyAll_preserves_pairing (ops : List BuilderOp) (b : QueueSubmissionBuilder)
    (h : b.inner.wait_semaphores.length = b.inner.wait_dst_stage_masks.length) :
    (BuilderOp.applyAll b ops).inner.wait_semaphores.length =
      (BuilderOp.applyAll b ops).inner.wait_dst_stage_masks.length := by
  induction ops generalizing b with
  | nil => exact h
  | cons op rest ih =>
      simp only [BuilderOp.applyAll, List.foldl_cons] at ih ⊢
      exact ih _ (builder_op_preserves_pairing b op h)

/-- **C9.** Every `QueueSubmission` produced by any sequence of builder
operations starting from the default builder and ending with `build` has
wait-semaphore and wait-stage-mask lists of equal length: both start empty,
`with_wait_semaphore` pushes exactly one element onto each, and every builder
operation preserves the equal-length pairing. -/
theorem queue_submission_wait_pairing :
    QueueSubmissionBuilder.new.inner.wait_semaphores = [] ∧
    QueueSubmissionBuilder.new.inner.wait_dst_stage_masks = [] ∧
    (∀ (b : QueueSubmissionBuilder) (s st : Nat),
      (b.with_wait_semaphore s st).inner.wait_semaphores =
          b.inner.wait_semaphores ++ [s] ∧
      (b.with_wait_semaphore s st).inner.wait_dst_stage_masks =
          b.inner.wait_dst_stage_masks ++ [st]) ∧
    (∀ (b : QueueSubmissionBuilder) (op : BuilderOp),
      b.inner.wait_semaphores.length = b.inner.wait_dst_stage_masks.length →
      (BuilderOp.apply b op).inner.wait_semaphores.length =
        (BuilderOp.apply b op).inner.wait_dst_stage_masks.length) ∧
    (∀ ops : List BuilderOp,
      (BuilderOp.applyAll QueueSubmissionBuilder.new ops).build.wait_semaphores.length =
        (BuilderOp.applyAll QueueSubmissionBuilder.new ops).build.wait_dst_stage_masks.length) :=
  ⟨rfl, rfl,
   fun b s st => ⟨rfl, rfl⟩,
   builder_op_preserves_pairing,
   fun ops => applyAll_preserves_pairing ops QueueSubmissionBuilder.new rfl⟩

/-- Witness for **C9**: the pairing invariant, applied at a concrete builder and
operation sequence. -/
theorem queue_submission_wait_pairing_witness :
    (BuilderOp.applyAll QueueSubmissionBuilder.new
        [.waitSemaphore 1 2, .commandBuffer 7,
         .waitSemaphores [(3, 4), (5, 6)]]).build.wait_semaphores.length =
      (BuilderOp.applyAll QueueSubmissionBuilder.new
        [.waitSemaphore 1 2, .commandBuffer 7,
         .waitSemaphores [(3, 4), (5, 6)]]).build.wait_dst_stage_masks.length := by
  have h := queue_submission_wait_pairing.2.2.2.2
  exact h [.waitSemaphore 1 2, .commandBuffer 7, .waitSemaphores [(3, 4), (5, 6)]]

/-! ## Claim theorems: dispatch and clear never fail -/

/-- **C10.** `DispatchCommands::dispatch` and `dispatch_indirect` return `Ok` on
every input and every session state (they check no precondition, so the
`DispatchError` branch is unreachable), and every `ClearCommands` operation
returns `Ok`, `ClearError` being an uninhabited enum of which no value can ever
be constructed. -/
theorem dispatch_and_clear_always_ok :
    (∀ (r : CommandBufferRecorder) (x y z : Nat),
      (DispatchCommands.dispatch r x y z).1 = .ok () ∧
      (DispatchCommands.dispatch r x y z).2 =
        { r with trace := r.trace ++ [Cmd.dispatch x y z] }) ∧
    (∀ (r : CommandBufferRecorder) (b : Buffer) (offset : Nat),
      (DispatchCommands.dispatch_indirect r b offset).1 = .ok ()) ∧
    (∀ e : ClearError, False) ∧
    (∀ (r : CommandBufferRecorder) (img : Image) (color rangeCount : Nat),
      (ClearCommands.clear_color_image r img color rangeCount).1 = .ok ()) ∧
    (∀ (r : CommandBufferRecorder) (attachmentCount rectCount : Nat),
      (ClearCommands.clear_attachments r attachmentCount rectCount).1 = .ok ()) ∧
    (∀ (r : CommandBufferRecorder) (b : Buffer) (dstOffset size data : Nat),
      (ClearCommands.fill_buffer r b dstOffset size data).1 = .ok ()) ∧
    (∀ (r : CommandBufferRecorder) (b : Buffer) (dstOffset : Nat) (data : List Nat),
      (ClearCommands.update_buffer r b dstOffset data).1 = .ok ()) := by
  refine ⟨fun r x y z => ⟨rfl, rfl⟩, fun r b o => rfl, ?_, fun r img c n => rfl,
    fun r a rc => rfl, fun r b o s d => rfl, fun r b o data => rfl⟩
  intro e
  cases e

/-- Witness for **C10**: dispatch at a concrete recorder that never bound a
compute pipeline still returns `Ok`. -/
theorem dispatch_and_clear_always_ok_witness :
    (DispatchCommands.dispatch ⟨⟨0, .Recording, 0, ⟨⟨2, 0⟩⟩⟩, {}, {}, []⟩
        100 100 1).1 = .ok () :=
  (dispatch_and_clear_always_ok.1 ⟨⟨0, .Recording, 0, ⟨⟨2, 0⟩⟩⟩, {}, {}, []⟩
    100 100 1).1

end Caldeira
